import Mathlib

/-!
Verification development for the waveform synthesizer core (`synthesizer/synth.py`).

The Python source is shallowly embedded over exact rational arithmetic:
Python floats become `ℚ` (the transcendental `math.sin` is abstracted as a
function parameter `s : ℚ → ℚ`, since every property below is independent of
its values), Python generators become explicit sample functions `ℕ → ℚ`
(index `k` is the `k`-th yielded value), fallible calls return
`Except PyErr`, and the global pseudo-random source consumed by
`random.uniform` becomes an explicit stream parameter `rnd : ℕ → ℚ`.
The transcendental `math.log` used by `EchoFilter` is embedded over `ℝ`
with `Real.log`.
-/

namespace Synth

/-- Error conditions raised by the Python code: `assert` failures
(`AssertionError`) in parameter validation, and division by zero. -/
inductive PyErr where
  | invalidParameter : PyErr
  | invalidPulsewidth : PyErr
  | zeroDivision : PyErr
  deriving DecidableEq, Repr

/-- Python `int(x)` on a float: truncation toward zero. -/
def pyInt (q : ℚ) : ℤ :=
  if 0 ≤ q then ⌊q⌋ else -⌊-q⌋

/-- Python `x % 1.0` on a float: the fractional part, always in `[0, 1)`
(the result takes the sign of the divisor). -/
def pymod1 (x : ℚ) : ℚ :=
  x - ⌊x⌋

/-- Python `round(x)` (banker's rounding: nearest integer, ties to even).
This models the SPEC's wording; the code itself uses `int` truncation. -/
def pyRound (q : ℚ) : ℤ :=
  if q - ⌊q⌋ = 1 / 2 then (if ⌊q⌋ % 2 = 0 then ⌊q⌋ else ⌊q⌋ + 1) else ⌊q + 1 / 2⌋

/-- The exact rational value of the IEEE-754 double `math.pi`. -/
def math_pi : ℚ :=
  884279719003555 / 281474976710656

/-- Python `2 * math.pi` as used by the oscillators. -/
def twoPi : ℚ :=
  2 * math_pi

/-- The exact rational value of `sys.float_info.epsilon` (2⁻⁵²). -/
def machineEps : ℚ :=
  1 / 2 ^ 52

/-- The exact rational value of `sys.float_info.min` (2⁻¹⁰²², the smallest
positive normalized double, about 2.2e-308). -/
def sysFloatInfoMin : ℚ :=
  1 / 2 ^ 1022

/-- The exact rational value of `sys.float_info.max` ((2⁵³ − 1)·2⁹⁷¹). -/
def sysFloatInfoMax : ℚ :=
  (2 ^ 53 - 1) * 2 ^ 971

/-! ## FM bookkeeping shared by the slow (FM-capable) oscillators

Each slow oscillator's generator runs, per yielded sample `k`:
`freq = frequency*(1.0+next(fm))`, `phase_correction += (freq_previous-freq)*t`,
`freq_previous = freq`, and uses `tt = t*freq + phase_correction` with
`t = k*increment`.  `fm : ℕ → ℚ` is the modulator stream
(`itertools.repeat(0.0)` when `fm_lfo` is `None`). -/

/-- The FM-modulated instantaneous frequency at sample `k`:
`frequency * (1.0 + next(self.fm))`. -/
def fmFreq (frequency : ℚ) (fm : ℕ → ℚ) (k : ℕ) : ℚ :=
  frequency * (1 + fm k)

/-- The value of `freq_previous` at the start of iteration `k`
(initialized to `self.frequency`). -/
def freqPrev (frequency : ℚ) (fm : ℕ → ℚ) : ℕ → ℚ
  | 0 => frequency
  | k + 1 => fmFreq frequency fm k

/-- The value of `phase_correction` used at iteration `k`, after the
in-loop update `phase_correction += (freq_previous-freq)*t` with
`t = k*increment`, starting from `pc0`. -/
def phaseCorrection (frequency pc0 increment : ℚ) (fm : ℕ → ℚ) : ℕ → ℚ
  | 0 => pc0 + (freqPrev frequency fm 0 - fmFreq frequency fm 0) * (0 * increment)
  | k + 1 => phaseCorrection frequency pc0 increment fm k +
      (freqPrev frequency fm (k + 1) - fmFreq frequency fm (k + 1)) * ((k + 1 : ℕ) * increment)

/-- The phase argument `tt = t*freq + phase_correction` at iteration `k`. -/
def fmPhase (frequency pc0 increment : ℚ) (fm : ℕ → ℚ) (k : ℕ) : ℚ :=
  (k * increment) * fmFreq frequency fm k + phaseCorrection frequency pc0 increment fm k

/-! ## Slow (FM-capable) oscillators -/

/-- Python `Sine.generator`: `sin(t*freq+phase_correction)*amplitude+bias` with
`increment = 2.0*math.pi/samplerate` and initial
`phase_correction = phase*2*math.pi`.  `s` abstracts `math.sin`. -/
def Sine.sample (s : ℚ → ℚ) (samplerate : ℕ) (frequency amplitude phase bias : ℚ)
    (fm : ℕ → ℚ) (k : ℕ) : ℚ :=
  s (fmPhase frequency (phase * twoPi) (twoPi / samplerate) fm k) * amplitude + bias

/-- Python `Triangle.generator`:
`4.0*amplitude*(fabs((tt+0.75) % 1.0 - 0.5)-0.25)+bias` with
`increment = 1.0/samplerate` and initial `phase_correction = phase`. -/
def Triangle.sample (samplerate : ℕ) (frequency amplitude phase bias : ℚ)
    (fm : ℕ → ℚ) (k : ℕ) : ℚ :=
  4 * amplitude *
    (|pymod1 (fmPhase frequency phase (1 / samplerate) fm k + 3 / 4) - 1 / 2| - 1 / 4) + bias

/-- Python `Square.generator`: `(-amplitude if int(tt*2) % 2 else amplitude)+bias`
with `increment = 1.0/samplerate` and initial `phase_correction = phase`. -/
def Square.sample (samplerate : ℕ) (frequency amplitude phase bias : ℚ)
    (fm : ℕ → ℚ) (k : ℕ) : ℚ :=
  (if pyInt (fmPhase frequency phase (1 / samplerate) fm k * 2) % 2 ≠ 0 then
    -amplitude else amplitude) + bias

/-- Python `Sawtooth.generator`: `bias+amplitude*2.0*(tt - floor(0.5+tt))` with
`increment = 1.0/samplerate` and initial `phase_correction = phase`. -/
def Sawtooth.sample (samplerate : ℕ) (frequency amplitude phase bias : ℚ)
    (fm : ℕ → ℚ) (k : ℕ) : ℚ :=
  bias + amplitude * 2 *
    (fmPhase frequency phase (1 / samplerate) fm k -
      ⌊1 / 2 + fmPhase frequency phase (1 / samplerate) fm k⌋)

/-- The per-sample pulse-width clipping done by `Pulse.generator` and the
PWM branch of `FastPulse.generator`: values `≤ 0` become
`sys.float_info.epsilon`, values `≥ 1` become `1 - epsilon`. -/
def clipPulsewidth (pw : ℚ) : ℚ :=
  if pw ≤ 0 then machineEps else if 1 ≤ pw then 1 - machineEps else pw

/-- Python `Pulse.generator`: `(amplitude if tt % 1.0 < pw else -amplitude)+bias`,
where `pw` is drawn from `self.pwm` (the `pwm_lfo` stream, or
`itertools.repeat(pulsewidth)` when it is `None`) and clipped strictly
inside `(0, 1)`. -/
def Pulse.sample (samplerate : ℕ) (frequency amplitude phase bias pulsewidth : ℚ)
    (fm : ℕ → ℚ) (pwm : Option (ℕ → ℚ)) (k : ℕ) : ℚ :=
  (if pymod1 (fmPhase frequency phase (1 / samplerate) fm k) <
      clipPulsewidth ((pwm.getD fun _ => pulsewidth) k) then
    amplitude else -amplitude) + bias

/-- Python `Harmonics.generator`: sums `sin(q*k)*amp` over the harmonics whose
frequency does not exceed Nyquist (`h[0]*frequency <= samplerate/2`), then
`yield h*self.amplitude+self.bias`; `increment = 2.0*math.pi/samplerate`,
initial `phase_correction = phase*2.0*math.pi`. -/
def Harmonics.sample (s : ℚ → ℚ) (samplerate : ℕ) (frequency : ℚ)
    (harmonics : List (ℕ × ℚ)) (amplitude phase bias : ℚ) (fm : ℕ → ℚ) (k : ℕ) : ℚ :=
  ((harmonics.filter fun h => (h.1 : ℚ) * frequency ≤ (samplerate : ℚ) / 2).foldl
      (fun acc h =>
        acc + s (fmPhase frequency (phase * twoPi) (twoPi / samplerate) fm k * h.1) * h.2)
      0) * amplitude + bias

/-- Python `SquareH.__init__`'s harmonic table: `[(n, 1.0/n) for n in range(1, num_harmonics*2, 2)]`
(the odd harmonics `1, 3, …, 2*num_harmonics - 1`). -/
def SquareH.harmonicsTable (num_harmonics : ℕ) : List (ℕ × ℚ) :=
  (List.range num_harmonics).map fun i => (2 * i + 1, 1 / (2 * i + 1 : ℚ))

/-- Python `SquareH`: a `Harmonics` oscillator over the odd-harmonic table. -/
def SquareH.sample (s : ℚ → ℚ) (samplerate : ℕ) (frequency : ℚ) (num_harmonics : ℕ)
    (amplitude phase bias : ℚ) (fm : ℕ → ℚ) (k : ℕ) : ℚ :=
  Harmonics.sample s samplerate frequency (SquareH.harmonicsTable num_harmonics)
    amplitude phase bias fm k

/-- Python `SawtoothH.__init__`'s harmonic table: `[(n, 1.0/n) for n in range(1, num_harmonics+1)]`
(all harmonics `1, …, num_harmonics`). -/
def SawtoothH.harmonicsTable (num_harmonics : ℕ) : List (ℕ × ℚ) :=
  (List.range num_harmonics).map fun i => (i + 1, 1 / (i + 1 : ℚ))

/-- Python `SawtoothH`: a `Harmonics` oscillator over all harmonics, constructed
with `phase+0.5`, whose generator yields `self.bias*2.0-y` for each
underlying harmonic sample `y`. -/
def SawtoothH.sample (s : ℚ → ℚ) (samplerate : ℕ) (frequency : ℚ) (num_harmonics : ℕ)
    (amplitude phase bias : ℚ) (fm : ℕ → ℚ) (k : ℕ) : ℚ :=
  bias * 2 - Harmonics.sample s samplerate frequency (SawtoothH.harmonicsTable num_harmonics)
    amplitude (phase + 1 / 2) bias fm k

/-- Python `WhiteNoise.generator`: `cycles = int(samplerate / frequency)`; draws
`value = random.uniform(-amplitude, amplitude) + bias` and yields it
`cycles` times, forever.  `rnd i` models the `i`-th value returned by
`random.uniform(-amplitude, amplitude)` (the amplitude range is a
postcondition of `uniform`, carried as a hypothesis in the theorems). -/
def WhiteNoise.sample (rnd : ℕ → ℚ) (samplerate : ℕ) (frequency bias : ℚ) (k : ℕ) : ℚ :=
  rnd (k / (pyInt ((samplerate : ℚ) / frequency)).toNat) + bias

/-- Python `Linear.generator`: yields `self.value`, then (only when the increment
is nonzero — Python truthiness of `self.increment`) updates
`value = min(max_value, max(min_value, value+increment))`.  `Linear.value
start inc mn mx k` is the `k`-th yielded value. -/
def Linear.value (startlevel increment min_value max_value : ℚ) : ℕ → ℚ
  | 0 => startlevel
  | k + 1 =>
    if increment ≠ 0 then
      min max_value (max min_value (Linear.value startlevel increment min_value max_value k + increment))
    else
      Linear.value startlevel increment min_value max_value k

/-! ## Fast (fixed-frequency) oscillators -/

/-- Python `FastSine.generator`: `rate = samplerate/frequency`,
`increment = 2.0*math.pi/rate`, `t` starts at `phase*2.0*math.pi`;
yields `sin(t)*amplitude+bias`. -/
def FastSine.sample (s : ℚ → ℚ) (samplerate : ℕ) (frequency amplitude phase bias : ℚ)
    (k : ℕ) : ℚ :=
  s (phase * twoPi + k * (twoPi / ((samplerate : ℚ) / frequency))) * amplitude + bias

/-- Python `FastTriangle.generator`: `t` starts at `phase/frequency`, increment
`1.0/samplerate`; yields `4.0*amplitude*(fabs((t*freq+0.75) % 1.0 - 0.5)-0.25)+bias`. -/
def FastTriangle.sample (samplerate : ℕ) (frequency amplitude phase bias : ℚ) (k : ℕ) : ℚ :=
  4 * amplitude *
    (|pymod1 ((phase / frequency + k * (1 / (samplerate : ℚ))) * frequency + 3 / 4) - 1 / 2|
      - 1 / 4) + bias

/-- Python `FastSquare.generator`: `t` starts at `phase/frequency`, increment
`1.0/samplerate`; yields `(-amplitude if int(t*freq*2) % 2 else amplitude)+bias`. -/
def FastSquare.sample (samplerate : ℕ) (frequency amplitude phase bias : ℚ) (k : ℕ) : ℚ :=
  (if pyInt ((phase / frequency + k * (1 / (samplerate : ℚ))) * frequency * 2) % 2 ≠ 0 then
    -amplitude else amplitude) + bias

/-- Python `FastSawtooth.generator`: `t` starts at `phase/frequency`, increment
`1.0/samplerate`, `tt = t*freq`; yields `bias+2.0*amplitude*(tt - floor(0.5+tt))`. -/
def FastSawtooth.sample (samplerate : ℕ) (frequency amplitude phase bias : ℚ) (k : ℕ) : ℚ :=
  bias + 2 * amplitude *
    ((phase / frequency + k * (1 / (samplerate : ℚ))) * frequency -
      ⌊1 / 2 + (phase / frequency + k * (1 / (samplerate : ℚ))) * frequency⌋)

/-- Python `FastPulse.generator`: `t` starts at `phase/frequency`, increment
`1.0/samplerate`.  With a PWM stream the pulse width is drawn from it and
clipped; without one the constructor's `pulsewidth` is used unclipped. -/
def FastPulse.sample (samplerate : ℕ) (frequency amplitude phase bias pulsewidth : ℚ)
    (pwm : Option (ℕ → ℚ)) (k : ℕ) : ℚ :=
  match pwm with
  | some m =>
    (if pymod1 ((phase / frequency + k * (1 / (samplerate : ℚ))) * frequency) <
        clipPulsewidth (m k) then amplitude else -amplitude) + bias
  | none =>
    (if pymod1 ((phase / frequency + k * (1 / (samplerate : ℚ))) * frequency) <
        pulsewidth then amplitude else -amplitude) + bias

/-! ## Error behaviour of the sine generators at frequency zero

Python `Sine.generator` divides only by the samplerate, while
`FastSine.generator` first computes `rate = self._samplerate/self._frequency`:
at frequency `0` the fast generator raises `ZeroDivisionError` on its first
`next()`, before any sample is produced, while the FM-capable generator
streams samples.  The outcome of starting each generator is modelled at
the `Except` level. -/

/-- Python `Sine.generator` as a fallible stream: the only division it
performs is `increment = 2.0*math.pi/self._samplerate`, which raises
`ZeroDivisionError` only at samplerate 0; it never divides by the
frequency. -/
def Sine.stream (s : ℚ → ℚ) (samplerate : ℕ) (frequency amplitude phase bias : ℚ)
    (fm : ℕ → ℚ) : Except PyErr (ℕ → ℚ) :=
  if (samplerate : ℚ) = 0 then Except.error PyErr.zeroDivision
  else Except.ok (Sine.sample s samplerate frequency amplitude phase bias fm)

/-- Python `FastSine.generator` as a fallible stream:
`rate = self._samplerate/self._frequency` raises `ZeroDivisionError` at
frequency 0, and `increment = 2.0*math.pi/rate` raises when the rate is
zero (samplerate 0). -/
def FastSine.stream (s : ℚ → ℚ) (samplerate : ℕ) (frequency amplitude phase bias : ℚ) :
    Except PyErr (ℕ → ℚ) :=
  if frequency = 0 ∨ (samplerate : ℚ) = 0 then Except.error PyErr.zeroDivision
  else Except.ok (FastSine.sample s samplerate frequency amplitude phase bias)

/-! ## Filters -/

/-- Iteration count of the loop `while time < bound: yield …; time += 1.0/samplerate`
when `time` starts at `t0`: the iterations are `j = 0, 1, …` while
`t0 + j/samplerate < bound`, i.e. `j < (bound - t0)*samplerate`, so the
count is `⌈(bound - t0)*samplerate⌉` (clamped at 0). -/
def iterCount (t0 bound : ℚ) (samplerate : ℕ) : ℕ :=
  (Int.ceil ((bound - t0) * samplerate)).toNat

/-- Python `EnvelopeFilter.generator` for `cycle=False` (the non-repeating case;
with `cycle=True` the whole A/D/S/R block restarts forever).  Within one
pass `time` starts at `0.0` and advances by `increment = 1/samplerate`
once per yielded sample, so the `j`-th yielded sample occurs at
`time = j/samplerate`; the attack/decay/release blocks are guarded by the
Python truthiness of their durations, and each block's per-yield amplitude
starts at its initial value (`0.0`, `1.0`, `sustain_level`) and advances by
its `amp_change` after each yield.  After the release loop, one extra
sample is yielded if the accumulated amplitude is still positive.  After
the pass, `stop_at_end=False` yields `0.0` forever (`some 0`), while
`stop_at_end=True` terminates the stream (`none`). -/
def EnvelopeFilter.sample (src : ℕ → ℚ) (samplerate : ℕ)
    (attack decay sustain sustain_level release : ℚ) (stop_at_end : Bool) (j : ℕ) : Option ℚ :=
  let nA := if attack ≠ 0 then iterCount 0 attack samplerate else 0
  let nD := if decay ≠ 0 then iterCount ((nA : ℚ) / samplerate) (attack + decay) samplerate else 0
  let nS := iterCount (((nA + nD : ℕ) : ℚ) / samplerate) (attack + decay + sustain) samplerate
  let nR := if release ≠ 0 then
      iterCount (((nA + nD + nS : ℕ) : ℚ) / samplerate) (attack + decay + sustain + release)
        samplerate
    else 0
  let ampEnd := sustain_level + nR * (-sustain_level / release * (1 / samplerate))
  let extra := if release ≠ 0 ∧ 0 < ampEnd then 1 else 0
  if j < nA then some (src j * (j * (1 / attack * (1 / samplerate))))
  else if j < nA + nD then
    some (src j * (1 + ((j - nA : ℕ) : ℚ) * ((sustain_level - 1) / decay * (1 / samplerate))))
  else if j < nA + nD + nS then some (src j * sustain_level)
  else if j < nA + nD + nS + nR then
    some (src j * (sustain_level +
      ((j - (nA + nD + nS) : ℕ) : ℚ) * (-sustain_level / release * (1 / samplerate))))
  else if j < nA + nD + nS + nR + extra then some (src j * ampEnd)
  else if stop_at_end then none
  else some 0

/-- Python `DelayFilter.generator`: a negative delay first discards
`int(-samplerate*seconds)` source samples, a non-negative delay first
yields `int(samplerate*seconds)` zeros; then the source passes through
unchanged. -/
def DelayFilter.sample (src : ℕ → ℚ) (samplerate : ℕ) (seconds : ℚ) (k : ℕ) : ℚ :=
  if seconds < 0 then
    src (k + (pyInt (-(samplerate : ℚ) * seconds)).toNat)
  else if k < (pyInt ((samplerate : ℚ) * seconds)).toNat then 0
  else src (k - (pyInt ((samplerate : ℚ) * seconds)).toNat)

/-- Python `int(x)` on a real (truncation toward zero); used where the code
computes with the transcendental `math.log`, which is embedded over `ℝ`. -/
noncomputable def pyIntR (x : ℝ) : ℤ :=
  if 0 ≤ x then ⌊x⌋ else -⌊-x⌋

/-- Python `EchoFilter.__init__`'s echo-count cap:
`if decay < 1: amount = int(min(amount, math.log(0.000001, decay)))`,
where `math.log(x, b) = log(x)/log(b)`. -/
noncomputable def EchoFilter.effectiveAmount (amount : ℕ) (decay : ℝ) : ℤ :=
  if decay < 1 then
    pyIntR (min (amount : ℝ) (Real.log (1 / 1000000) / Real.log decay))
  else amount

/-- Python `ClipFilter.generator`: `yield max(min(v, self.max), self.min)`; the
constructor defaults are `minimum=sys.float_info.min` and
`maximum=sys.float_info.max`. -/
def ClipFilter.sample (minimum maximum : ℚ) (src : ℕ → ℚ) (k : ℕ) : ℚ :=
  max (min (src k) maximum) minimum

/-! ## The `WaveSynth` facade

Bounded rendering (`__render_sample`) pulls `int(duration*samplerate)`
values from the wave producer and truncates each to an integer; the
streaming `*_gen` methods build the same producer and yield `int(next(wave))`
forever.  Both are embedded on top of a common `*Wave` definition that
mirrors the private `__sine`/`__square`/… constructor helpers. -/

/-- Python `WaveSynth.__check_and_get_scale`: asserts `freq <= samplerate/2`,
`0 <= amplitude <= 1.0` and `-1 <= bias <= 1.0`, then returns the integer
full-scale factor `2**(samplewidth*8 - 1) - 1`. -/
def check_and_get_scale (samplerate samplewidth : ℕ) (freq amplitude bias : ℚ) :
    Except PyErr ℚ :=
  if freq ≤ (samplerate : ℚ) / 2 ∧ 0 ≤ amplitude ∧ amplitude ≤ 1 ∧ -1 ≤ bias ∧ bias ≤ 1 then
    Except.ok ((2 : ℚ) ^ (samplewidth * 8 - 1) - 1)
  else Except.error PyErr.invalidParameter

/-- Python `__render_sample` pulls `int(duration*self.samplerate)` values. -/
def renderLen (samplerate : ℕ) (duration : ℚ) : ℕ :=
  (pyInt (duration * samplerate)).toNat

/-- The three validated conditions of `WaveSynth.__check_and_get_scale`:
Nyquist limit, amplitude range, bias range. -/
def validParams (samplerate : ℕ) (freq amplitude bias : ℚ) : Prop :=
  freq ≤ (samplerate : ℚ) / 2 ∧ 0 ≤ amplitude ∧ amplitude ≤ 1 ∧ -1 ≤ bias ∧ bias ≤ 1

namespace WaveSynth

/-- Python `WaveSynth.__sine`: validates and scales, then builds `Sine` when an FM
LFO is supplied and `FastSine` otherwise. -/
def sineWave (s : ℚ → ℚ) (samplerate samplewidth : ℕ) (frequency amplitude phase bias : ℚ)
    (fm_lfo : Option (ℕ → ℚ)) : Except PyErr (ℕ → ℚ) :=
  (check_and_get_scale samplerate samplewidth frequency amplitude bias).map fun scale =>
    match fm_lfo with
    | some lfo => Sine.sample s samplerate frequency (amplitude * scale) phase (bias * scale) lfo
    | none => FastSine.sample s samplerate frequency (amplitude * scale) phase (bias * scale)

/-- Python `WaveSynth.__square`: `Square` with FM, `FastSquare` without. -/
def squareWave (samplerate samplewidth : ℕ) (frequency amplitude phase bias : ℚ)
    (fm_lfo : Option (ℕ → ℚ)) : Except PyErr (ℕ → ℚ) :=
  (check_and_get_scale samplerate samplewidth frequency amplitude bias).map fun scale =>
    match fm_lfo with
    | some lfo => Square.sample samplerate frequency (amplitude * scale) phase (bias * scale) lfo
    | none => FastSquare.sample samplerate frequency (amplitude * scale) phase (bias * scale)

/-- Python `WaveSynth.__triangle`: `Triangle` with FM, `FastTriangle` without. -/
def triangleWave (samplerate samplewidth : ℕ) (frequency amplitude phase bias : ℚ)
    (fm_lfo : Option (ℕ → ℚ)) : Except PyErr (ℕ → ℚ) :=
  (check_and_get_scale samplerate samplewidth frequency amplitude bias).map fun scale =>
    match fm_lfo with
    | some lfo => Triangle.sample samplerate frequency (amplitude * scale) phase (bias * scale) lfo
    | none => FastTriangle.sample samplerate frequency (amplitude * scale) phase (bias * scale)

/-- Python `WaveSynth.__sawtooth`: `Sawtooth` with FM, `FastSawtooth` without. -/
def sawtoothWave (samplerate samplewidth : ℕ) (frequency amplitude phase bias : ℚ)
    (fm_lfo : Option (ℕ → ℚ)) : Except PyErr (ℕ → ℚ) :=
  (check_and_get_scale samplerate samplewidth frequency amplitude bias).map fun scale =>
    match fm_lfo with
    | some lfo => Sawtooth.sample samplerate frequency (amplitude * scale) phase (bias * scale) lfo
    | none => FastSawtooth.sample samplerate frequency (amplitude * scale) phase (bias * scale)

/-- Python `WaveSynth.__pulse`: first `assert 0 <= pulsewidth <= 1`, then
validates/scales and builds `Pulse` with FM or `FastPulse` without. -/
def pulseWave (samplerate samplewidth : ℕ) (frequency amplitude phase bias pulsewidth : ℚ)
    (fm_lfo pwm_lfo : Option (ℕ → ℚ)) : Except PyErr (ℕ → ℚ) :=
  if 0 ≤ pulsewidth ∧ pulsewidth ≤ 1 then
    (check_and_get_scale samplerate samplewidth frequency amplitude bias).map fun scale =>
      match fm_lfo with
      | some lfo =>
        Pulse.sample samplerate frequency (amplitude * scale) phase (bias * scale) pulsewidth
          lfo pwm_lfo
      | none =>
        FastPulse.sample samplerate frequency (amplitude * scale) phase (bias * scale) pulsewidth
          pwm_lfo
  else Except.error PyErr.invalidPulsewidth

/-- Python `WaveSynth.__square_h`: always the harmonic (`SquareH`) oscillator; its
`fm_lfo=None` case is `itertools.repeat(0.0)` inside `Harmonics`. -/
def squareHWave (s : ℚ → ℚ) (samplerate samplewidth : ℕ) (frequency : ℚ) (num_harmonics : ℕ)
    (amplitude phase bias : ℚ) (fm_lfo : Option (ℕ → ℚ)) : Except PyErr (ℕ → ℚ) :=
  (check_and_get_scale samplerate samplewidth frequency amplitude bias).map fun scale =>
    SquareH.sample s samplerate frequency num_harmonics (amplitude * scale) phase (bias * scale)
      (fm_lfo.getD fun _ => 0)

/-- Python `WaveSynth.__sawtooth_h`: always the harmonic (`SawtoothH`) oscillator. -/
def sawtoothHWave (s : ℚ → ℚ) (samplerate samplewidth : ℕ) (frequency : ℚ) (num_harmonics : ℕ)
    (amplitude phase bias : ℚ) (fm_lfo : Option (ℕ → ℚ)) : Except PyErr (ℕ → ℚ) :=
  (check_and_get_scale samplerate samplewidth frequency amplitude bias).map fun scale =>
    SawtoothH.sample s samplerate frequency num_harmonics (amplitude * scale) phase (bias * scale)
      (fm_lfo.getD fun _ => 0)

/-- Python `WaveSynth.__harmonics`: always the `Harmonics` oscillator. -/
def harmonicsWave (s : ℚ → ℚ) (samplerate samplewidth : ℕ) (frequency : ℚ)
    (harmonics : List (ℕ × ℚ)) (amplitude phase bias : ℚ) (fm_lfo : Option (ℕ → ℚ)) :
    Except PyErr (ℕ → ℚ) :=
  (check_and_get_scale samplerate samplewidth frequency amplitude bias).map fun scale =>
    Harmonics.sample s samplerate frequency harmonics (amplitude * scale) phase (bias * scale)
      (fm_lfo.getD fun _ => 0)

/-- Python `WaveSynth.__white_noise`: validates and scales the amplitude and bias.
The scaled amplitude only shapes the range of the `rnd` draws. -/
def whiteNoiseWave (samplerate samplewidth : ℕ) (frequency amplitude bias : ℚ)
    (rnd : ℕ → ℚ) : Except PyErr (ℕ → ℚ) :=
  (check_and_get_scale samplerate samplewidth frequency amplitude bias).map fun scale =>
    WhiteNoise.sample rnd samplerate frequency (bias * scale)

/-- Python `WaveSynth.__linear`: `num_samples = int(duration*samplerate)`;
`increment = (finish_amp - start_amp) / (num_samples - 1)` raises
`ZeroDivisionError` exactly when `num_samples - 1 == 0`; otherwise builds
`Linear(start_amp, increment)` with its default clamp range `[-1, 1]`. -/
def linearWave (samplerate : ℕ) (duration start_amp finish_amp : ℚ) :
    Except PyErr (ℕ → ℚ) :=
  let num_samples := pyInt (duration * samplerate)
  if num_samples - 1 = 0 then Except.error PyErr.zeroDivision
  else Except.ok (Linear.value start_amp ((finish_amp - start_amp) / ((num_samples : ℚ) - 1)) (-1) 1)

/-- Bounded rendering of a validated wave: `__render_sample` with
`int(next(wave))` pulled `int(duration*samplerate)` times. -/
def render (samplerate : ℕ) (duration : ℚ) (wave : Except PyErr (ℕ → ℚ)) :
    Except PyErr (List ℤ) :=
  wave.map fun g => (List.range (renderLen samplerate duration)).map fun k => pyInt (g k)

/-- Streaming form of a validated wave: `while True: yield int(next(wave))`. -/
def stream (wave : Except PyErr (ℕ → ℚ)) : Except PyErr (ℕ → ℤ) :=
  wave.map fun g k => pyInt (g k)

/-- Python `WaveSynth.sine` (bounded). -/
def sine (s : ℚ → ℚ) (samplerate samplewidth : ℕ) (frequency duration amplitude phase bias : ℚ)
    (fm_lfo : Option (ℕ → ℚ)) : Except PyErr (List ℤ) :=
  render samplerate duration (sineWave s samplerate samplewidth frequency amplitude phase bias fm_lfo)

/-- Python `WaveSynth.sine_gen` (streaming). -/
def sine_gen (s : ℚ → ℚ) (samplerate samplewidth : ℕ) (frequency amplitude phase bias : ℚ)
    (fm_lfo : Option (ℕ → ℚ)) : Except PyErr (ℕ → ℤ) :=
  stream (sineWave s samplerate samplewidth frequency amplitude phase bias fm_lfo)

/-- Python `WaveSynth.square` (bounded). -/
def square (samplerate samplewidth : ℕ) (frequency duration amplitude phase bias : ℚ)
    (fm_lfo : Option (ℕ → ℚ)) : Except PyErr (List ℤ) :=
  render samplerate duration (squareWave samplerate samplewidth frequency amplitude phase bias fm_lfo)

/-- Python `WaveSynth.square_gen` (streaming). -/
def square_gen (samplerate samplewidth : ℕ) (frequency amplitude phase bias : ℚ)
    (fm_lfo : Option (ℕ → ℚ)) : Except PyErr (ℕ → ℤ) :=
  stream (squareWave samplerate samplewidth frequency amplitude phase bias fm_lfo)

/-- Python `WaveSynth.square_h` (bounded). -/
def square_h (s : ℚ → ℚ) (samplerate samplewidth : ℕ) (frequency duration : ℚ)
    (num_harmonics : ℕ) (amplitude phase bias : ℚ) (fm_lfo : Option (ℕ → ℚ)) :
    Except PyErr (List ℤ) :=
  render samplerate duration
    (squareHWave s samplerate samplewidth frequency num_harmonics amplitude phase bias fm_lfo)

/-- Python `WaveSynth.square_h_gen` (streaming). -/
def square_h_gen (s : ℚ → ℚ) (samplerate samplewidth : ℕ) (frequency : ℚ)
    (num_harmonics : ℕ) (amplitude phase bias : ℚ) (fm_lfo : Option (ℕ → ℚ)) :
    Except PyErr (ℕ → ℤ) :=
  stream (squareHWave s samplerate samplewidth frequency num_harmonics amplitude phase bias fm_lfo)

/-- Python `WaveSynth.triangle` (bounded). -/
def triangle (samplerate samplewidth : ℕ) (frequency duration amplitude phase bias : ℚ)
    (fm_lfo : Option (ℕ → ℚ)) : Except PyErr (List ℤ) :=
  render samplerate duration
    (triangleWave samplerate samplewidth frequency amplitude phase bias fm_lfo)

/-- Python `WaveSynth.triangle_gen` (streaming). -/
def triangle_gen (samplerate samplewidth : ℕ) (frequency amplitude phase bias : ℚ)
    (fm_lfo : Option (ℕ → ℚ)) : Except PyErr (ℕ → ℤ) :=
  stream (triangleWave samplerate samplewidth frequency amplitude phase bias fm_lfo)

/-- Python `WaveSynth.sawtooth` (bounded). -/
def sawtooth (samplerate samplewidth : ℕ) (frequency duration amplitude phase bias : ℚ)
    (fm_lfo : Option (ℕ → ℚ)) : Except PyErr (List ℤ) :=
  render samplerate duration
    (sawtoothWave samplerate samplewidth frequency amplitude phase bias fm_lfo)

/-- Python `WaveSynth.sawtooth_gen` (streaming). -/
def sawtooth_gen (samplerate samplewidth : ℕ) (frequency amplitude phase bias : ℚ)
    (fm_lfo : Option (ℕ → ℚ)) : Except PyErr (ℕ → ℤ) :=
  stream (sawtoothWave samplerate samplewidth frequency amplitude phase bias fm_lfo)

/-- Python `WaveSynth.sawtooth_h` (bounded). -/
def sawtooth_h (s : ℚ → ℚ) (samplerate samplewidth : ℕ) (frequency duration : ℚ)
    (num_harmonics : ℕ) (amplitude phase bias : ℚ) (fm_lfo : Option (ℕ → ℚ)) :
    Except PyErr (List ℤ) :=
  render samplerate duration
    (sawtoothHWave s samplerate samplewidth frequency num_harmonics amplitude phase bias fm_lfo)

/-- Python `WaveSynth.sawtooth_h_gen` (streaming). -/
def sawtooth_h_gen (s : ℚ → ℚ) (samplerate samplewidth : ℕ) (frequency : ℚ)
    (num_harmonics : ℕ) (amplitude phase bias : ℚ) (fm_lfo : Option (ℕ → ℚ)) :
    Except PyErr (ℕ → ℤ) :=
  stream (sawtoothHWave s samplerate samplewidth frequency num_harmonics amplitude phase bias fm_lfo)

/-- Python `WaveSynth.pulse` (bounded). -/
def pulse (samplerate samplewidth : ℕ) (frequency duration amplitude phase bias pulsewidth : ℚ)
    (fm_lfo pwm_lfo : Option (ℕ → ℚ)) : Except PyErr (List ℤ) :=
  render samplerate duration
    (pulseWave samplerate samplewidth frequency amplitude phase bias pulsewidth fm_lfo pwm_lfo)

/-- Python `WaveSynth.pulse_gen` (streaming). -/
def pulse_gen (samplerate samplewidth : ℕ) (frequency amplitude phase bias pulsewidth : ℚ)
    (fm_lfo pwm_lfo : Option (ℕ → ℚ)) : Except PyErr (ℕ → ℤ) :=
  stream (pulseWave samplerate samplewidth frequency amplitude phase bias pulsewidth fm_lfo pwm_lfo)

/-- Python `WaveSynth.harmonics` (bounded). -/
def harmonics (s : ℚ → ℚ) (samplerate samplewidth : ℕ) (frequency duration : ℚ)
    (harm : List (ℕ × ℚ)) (amplitude phase bias : ℚ) (fm_lfo : Option (ℕ → ℚ)) :
    Except PyErr (List ℤ) :=
  render samplerate duration
    (harmonicsWave s samplerate samplewidth frequency harm amplitude phase bias fm_lfo)

/-- Python `WaveSynth.harmonics_gen` (streaming). -/
def harmonics_gen (s : ℚ → ℚ) (samplerate samplewidth : ℕ) (frequency : ℚ)
    (harm : List (ℕ × ℚ)) (amplitude phase bias : ℚ) (fm_lfo : Option (ℕ → ℚ)) :
    Except PyErr (ℕ → ℤ) :=
  stream (harmonicsWave s samplerate samplewidth frequency harm amplitude phase bias fm_lfo)

/-- Python `WaveSynth.white_noise` (bounded); `rnd` models the global
pseudo-random source observed by this call. -/
def white_noise (samplerate samplewidth : ℕ) (frequency duration amplitude bias : ℚ)
    (rnd : ℕ → ℚ) : Except PyErr (List ℤ) :=
  render samplerate duration (whiteNoiseWave samplerate samplewidth frequency amplitude bias rnd)

/-- Python `WaveSynth.white_noise_gen` (streaming); `rnd` models the global
pseudo-random source observed by this call. -/
def white_noise_gen (samplerate samplewidth : ℕ) (frequency amplitude bias : ℚ)
    (rnd : ℕ → ℚ) : Except PyErr (ℕ → ℤ) :=
  stream (whiteNoiseWave samplerate samplewidth frequency amplitude bias rnd)

/-- Python `WaveSynth.linear` (bounded). -/
def linear (samplerate : ℕ) (duration start_amp finish_amp : ℚ) : Except PyErr (List ℤ) :=
  render samplerate duration (linearWave samplerate duration start_amp finish_amp)

/-- Python `WaveSynth.linear_gen` (streaming): yields `int(next(wave))` for
exactly `int(duration*samplerate)` pulls, then the stream ends (`none`). -/
def linear_gen (samplerate : ℕ) (duration start_amp finish_amp : ℚ) :
    Except PyErr (ℕ → Option ℤ) :=
  (linearWave samplerate duration start_amp finish_amp).map fun g k =>
    if k < renderLen samplerate duration then some (pyInt (g k)) else none

end WaveSynth

/-- A Python generator object for `WaveSynth.sine_gen`: calling a generator
function only captures its arguments; no code of the body (and hence no
parameter validation) runs until the first `next()`. -/
structure SineGenObj where
  samplerate : ℕ
  samplewidth : ℕ
  frequency : ℚ
  amplitude : ℚ
  phase : ℚ
  bias : ℚ
  deriving Repr

/-- Calling `WaveSynth.sine_gen(...)`: returns the generator object and
never raises, whatever the parameters. -/
def sineGenCall (samplerate samplewidth : ℕ) (frequency amplitude phase bias : ℚ) :
    Except PyErr SineGenObj :=
  Except.ok ⟨samplerate, samplewidth, frequency, amplitude, phase, bias⟩

/-- The first `next()` on the generator object: the body runs up to its
first `yield`, performing the parameter validation and producing sample 0. -/
def sineGenFirstPull (s : ℚ → ℚ) (g : SineGenObj) (fm_lfo : Option (ℕ → ℚ)) :
    Except PyErr ℤ :=
  (WaveSynth.sine_gen s g.samplerate g.samplewidth g.frequency g.amplitude g.phase g.bias
    fm_lfo).map fun st => st 0

/-! ## Helper lemmas -/

/-- Bounded rendering of a wave is the `renderLen`-prefix of its stream:
both are built from the same validated producer. -/
theorem render_eq_stream_take (samplerate : ℕ) (duration : ℚ)
    (wave : Except PyErr (ℕ → ℚ)) :
    WaveSynth.render samplerate duration wave =
      (WaveSynth.stream wave).map fun g => (List.range (renderLen samplerate duration)).map g := by
  cases wave <;> rfl

/-- Bounded rendering of a wave matches the finitely-terminating stream
shape used by `linear_gen`. -/
theorem render_eq_finite_stream_take (samplerate : ℕ) (duration : ℚ)
    (wave : Except PyErr (ℕ → ℚ)) :
    WaveSynth.render samplerate duration wave =
      (wave.map fun g k =>
          if k < renderLen samplerate duration then some (pyInt (g k)) else none).map
        fun h => (List.range (renderLen samplerate duration)).map fun k => (h k).getD 0 := by
  cases wave with
  | error e => rfl
  | ok g =>
    simp only [WaveSynth.render, Except.map]
    congr 1
    refine List.map_congr_left fun k hk => ?_
    rw [List.mem_range] at hk
    simp [hk]

/-! ## Claim C1 -/

/-- C1, counterexample: `white_noise` and `white_noise_gen` are separate
calls, so they consume different draws of the shared global random source
(here: one call observes the constant draw `0`, the later call observes
`1`; both draws lie inside `uniform(-amplitude*scale, amplitude*scale)`'s
range).  With identical parameters (`samplerate=4, samplewidth=2,
frequency=1, duration=1, amplitude=1, bias=0`) the bounded render is
`[0,0,0,0]` while the streaming prefix is `[1,1,1,1]`, so the claimed
sample-for-sample equality fails for the `white_noise` kind. -/
theorem c1_counterexample :
    WaveSynth.white_noise 4 2 1 1 1 0 (fun _ => 0) ≠
      (WaveSynth.white_noise_gen 4 2 1 1 0 (fun _ => 1)).map
        fun g => (List.range (renderLen 4 1)).map g := by
  have h1 : WaveSynth.white_noise 4 2 1 1 1 0 (fun _ => 0) = Except.ok [0, 0, 0, 0] := by
    norm_num [WaveSynth.white_noise, WaveSynth.whiteNoiseWave, WaveSynth.render,
      check_and_get_scale, WhiteNoise.sample, renderLen, pyInt, Except.map]
    rfl
  have h2 : ((WaveSynth.white_noise_gen 4 2 1 1 0 (fun _ => 1)).map
      fun g => (List.range (renderLen 4 1)).map g) = Except.ok [1, 1, 1, 1] := by
    norm_num [WaveSynth.white_noise_gen, WaveSynth.whiteNoiseWave, WaveSynth.stream,
      check_and_get_scale, WhiteNoise.sample, renderLen, pyInt, Except.map]
    rfl
  rw [h1, h2]
  simp

/-- C1, amended: for the nine deterministic waveform kinds (sine, square,
square_h, triangle, sawtooth, sawtooth_h, pulse, harmonics, linear), the
bounded render equals, sample for sample, the first
`int(duration*samplerate)` integers of the corresponding streaming
operation, for identical parameters (FM/PWM modulators included); for
white_noise the equality additionally requires that both calls observe the
same sequence of random draws (in the program the two calls advance one
shared global generator, so their draws — and hence outputs — differ). -/
theorem c1_theorem (s : ℚ → ℚ) (samplerate samplewidth : ℕ)
    (frequency duration amplitude phase bias pulsewidth start_amp finish_amp : ℚ)
    (num_harmonics : ℕ) (harm : List (ℕ × ℚ)) (fm_lfo pwm_lfo : Option (ℕ → ℚ))
    (rnd : ℕ → ℚ) :
    WaveSynth.sine s samplerate samplewidth frequency duration amplitude phase bias fm_lfo =
      (WaveSynth.sine_gen s samplerate samplewidth frequency amplitude phase bias fm_lfo).map
        (fun g => (List.range (renderLen samplerate duration)).map g) ∧
    WaveSynth.square samplerate samplewidth frequency duration amplitude phase bias fm_lfo =
      (WaveSynth.square_gen samplerate samplewidth frequency amplitude phase bias fm_lfo).map
        (fun g => (List.range (renderLen samplerate duration)).map g) ∧
    WaveSynth.square_h s samplerate samplewidth frequency duration num_harmonics amplitude phase
        bias fm_lfo =
      (WaveSynth.square_h_gen s samplerate samplewidth frequency num_harmonics amplitude phase
          bias fm_lfo).map
        (fun g => (List.range (renderLen samplerate duration)).map g) ∧
    WaveSynth.triangle samplerate samplewidth frequency duration amplitude phase bias fm_lfo =
      (WaveSynth.triangle_gen samplerate samplewidth frequency amplitude phase bias fm_lfo).map
        (fun g => (List.range (renderLen samplerate duration)).map g) ∧
    WaveSynth.sawtooth samplerate samplewidth frequency duration amplitude phase bias fm_lfo =
      (WaveSynth.sawtooth_gen samplerate samplewidth frequency amplitude phase bias fm_lfo).map
        (fun g => (List.range (renderLen samplerate duration)).map g) ∧
    WaveSynth.sawtooth_h s samplerate samplewidth frequency duration num_harmonics amplitude phase
        bias fm_lfo =
      (WaveSynth.sawtooth_h_gen s samplerate samplewidth frequency num_harmonics amplitude phase
          bias fm_lfo).map
        (fun g => (List.range (renderLen samplerate duration)).map g) ∧
    WaveSynth.pulse samplerate samplewidth frequency duration amplitude phase bias pulsewidth
        fm_lfo pwm_lfo =
      (WaveSynth.pulse_gen samplerate samplewidth frequency amplitude phase bias pulsewidth
          fm_lfo pwm_lfo).map
        (fun g => (List.range (renderLen samplerate duration)).map g) ∧
    WaveSynth.harmonics s samplerate samplewidth frequency duration harm amplitude phase bias
        fm_lfo =
      (WaveSynth.harmonics_gen s samplerate samplewidth frequency harm amplitude phase bias
          fm_lfo).map
        (fun g => (List.range (renderLen samplerate duration)).map g) ∧
    WaveSynth.linear samplerate duration start_amp finish_amp =
      (WaveSynth.linear_gen samplerate duration start_amp finish_amp).map
        (fun h => (List.range (renderLen samplerate duration)).map fun k => (h k).getD 0) ∧
    WaveSynth.white_noise samplerate samplewidth frequency duration amplitude bias rnd =
      (WaveSynth.white_noise_gen samplerate samplewidth frequency amplitude bias rnd).map
        (fun g => (List.range (renderLen samplerate duration)).map g) :=
  ⟨render_eq_stream_take _ _ _, render_eq_stream_take _ _ _,
    render_eq_stream_take _ _ _, render_eq_stream_take _ _ _,
    render_eq_stream_take _ _ _, render_eq_stream_take _ _ _,
    render_eq_stream_take _ _ _, render_eq_stream_take _ _ _,
    render_eq_finite_stream_take _ _ _, render_eq_stream_take _ _ _⟩

/-! ## Claim C2 -/

/-- With the constant-zero FM stream (`fm_lfo=None` becomes
`itertools.repeat(0.0)`), `freq` equals `frequency` at every step, so the
phase-correction accumulator never moves from its initial value. -/
theorem phaseCorrection_zero_fm (frequency pc0 increment : ℚ) (k : ℕ) :
    phaseCorrection frequency pc0 increment (fun _ => 0) k = pc0 := by
  induction k with
  | zero => simp [phaseCorrection, freqPrev, fmFreq]
  | succ n ih => simp [phaseCorrection, freqPrev, fmFreq, ih]

/-- With the constant-zero FM stream the phase argument is the plain
linear phase `t*frequency + pc0`. -/
theorem fmPhase_zero_fm (frequency pc0 increment : ℚ) (k : ℕ) :
    fmPhase frequency pc0 increment (fun _ => 0) k = k * increment * frequency + pc0 := by
  simp [fmPhase, fmFreq, phaseCorrection_zero_fm, mul_add, mul_one]

/-- C2, counterexample: the claimed bit-for-bit equality "for every
frequency/amplitude/phase/bias combination" fails at frequency `0`, which
every constructor accepts (and which even the facade's Nyquist check
admits): `FastSine.generator` raises `ZeroDivisionError` computing
`rate = samplerate/frequency` before any sample is produced, while the
FM-capable `Sine` streams samples forever.  It also fails at the legal
pulse width `0` (`assert 0 <= pulsewidth <= 1` accepts it): `Pulse` clips
the width up to `epsilon`, so at phase 0 its first sample is
`+amplitude`, while `FastPulse` compares against the unclipped `0` and
yields `-amplitude`. -/
theorem c2_counterexample :
    FastSine.stream (fun x => x) 44100 0 1 0 0 = Except.error PyErr.zeroDivision ∧
    Sine.stream (fun x => x) 44100 0 1 0 0 (fun _ => 0) =
      Except.ok (Sine.sample (fun x => x) 44100 0 1 0 0 (fun _ => 0)) ∧
    FastPulse.sample 8 2 1 0 0 0 none 0 = -1 ∧
    Pulse.sample 8 2 1 0 0 0 (fun _ => 0) none 0 = 1 := by
  refine ⟨?_, ?_, ?_, ?_⟩
  · norm_num [FastSine.stream]
  · norm_num [Sine.stream]
  · norm_num [FastPulse.sample, pymod1]
  · norm_num [Pulse.sample, clipPulsewidth, machineEps, pymod1, fmPhase, phaseCorrection,
      freqPrev, fmFreq]

/-- C2 (amended): for each of the five periodic waveform pairs
(Sine/FastSine, Triangle/FastTriangle, Square/FastSquare,
Sawtooth/FastSawtooth, Pulse/FastPulse) the fixed-frequency variant
produces exactly the FM-capable variant's samples when no FM modulator is
supplied, for every nonzero frequency and every amplitude/phase/bias (and,
for the pulse pair, every fixed pulse width strictly inside `(0,1)`, which
includes the facade's default `0.1`; at the boundary values `0` and `1`
the FM-capable `Pulse` clips the width to `±epsilon` while `FastPulse`
does not).  Equality is over the exact rational embedding of the float
formulas, with `math.sin` abstract. -/
theorem c2_theorem (s : ℚ → ℚ) (samplerate : ℕ)
    (frequency amplitude phase bias pulsewidth : ℚ) (k : ℕ)
    (hf : frequency ≠ 0) (hpw0 : 0 < pulsewidth) (hpw1 : pulsewidth < 1) :
    FastSine.sample s samplerate frequency amplitude phase bias k =
      Sine.sample s samplerate frequency amplitude phase bias (fun _ => 0) k ∧
    FastTriangle.sample samplerate frequency amplitude phase bias k =
      Triangle.sample samplerate frequency amplitude phase bias (fun _ => 0) k ∧
    FastSquare.sample samplerate frequency amplitude phase bias k =
      Square.sample samplerate frequency amplitude phase bias (fun _ => 0) k ∧
    FastSawtooth.sample samplerate frequency amplitude phase bias k =
      Sawtooth.sample samplerate frequency amplitude phase bias (fun _ => 0) k ∧
    FastPulse.sample samplerate frequency amplitude phase bias pulsewidth none k =
      Pulse.sample samplerate frequency amplitude phase bias pulsewidth (fun _ => 0) none k := by
  have hlin : (phase / frequency + (k : ℚ) * (1 / (samplerate : ℚ))) * frequency =
      (k : ℚ) * (1 / (samplerate : ℚ)) * frequency + phase := by
    rw [add_mul, div_mul_cancel₀ _ hf]
    ring
  have hclip : clipPulsewidth pulsewidth = pulsewidth := by
    rw [clipPulsewidth, if_neg (by linarith), if_neg (by linarith)]
  refine ⟨?_, ?_, ?_, ?_, ?_⟩
  · simp only [FastSine.sample, Sine.sample]
    rw [fmPhase_zero_fm]
    have harg : phase * twoPi + (k : ℚ) * (twoPi / ((samplerate : ℚ) / frequency)) =
        (k : ℚ) * (twoPi / (samplerate : ℚ)) * frequency + phase * twoPi := by
      rw [div_div_eq_mul_div]
      ring
    rw [harg]
  · simp only [FastTriangle.sample, Triangle.sample]
    rw [fmPhase_zero_fm, hlin]
  · simp only [FastSquare.sample, Square.sample]
    rw [fmPhase_zero_fm, hlin]
  · simp only [FastSawtooth.sample, Sawtooth.sample]
    rw [fmPhase_zero_fm, hlin]
    ring
  · simp only [FastPulse.sample, Pulse.sample, Option.getD_none]
    rw [fmPhase_zero_fm, hlin]
    simp only [hclip]

/-- C2, witness: the five equalities at `samplerate=8, frequency=2,
amplitude=1, phase=1/4, bias=0, pulsewidth=1/10, k=3`, with `math.sin`
instantiated by the identity function. -/
theorem c2_witness :
    FastSine.sample (fun x => x) 8 2 1 (1 / 4) 0 3 =
      Sine.sample (fun x => x) 8 2 1 (1 / 4) 0 (fun _ => 0) 3 ∧
    FastTriangle.sample 8 2 1 (1 / 4) 0 3 =
      Triangle.sample 8 2 1 (1 / 4) 0 (fun _ => 0) 3 ∧
    FastSquare.sample 8 2 1 (1 / 4) 0 3 =
      Square.sample 8 2 1 (1 / 4) 0 (fun _ => 0) 3 ∧
    FastSawtooth.sample 8 2 1 (1 / 4) 0 3 =
      Sawtooth.sample 8 2 1 (1 / 4) 0 (fun _ => 0) 3 ∧
    FastPulse.sample 8 2 1 (1 / 4) 0 (1 / 10) none 3 =
      Pulse.sample 8 2 1 (1 / 4) 0 (1 / 10) (fun _ => 0) none 3 :=
  c2_theorem (fun x => x) 8 2 1 (1 / 4) 0 (1 / 10) 3 (by norm_num) (by norm_num) (by norm_num)

/-! ## Claim C3 -/

/-- Python `__check_and_get_scale` fails with the invalid-parameter error exactly
when one of its three assertions fails. -/
theorem check_error_iff (samplerate samplewidth : ℕ) (freq amplitude bias : ℚ) :
    check_and_get_scale samplerate samplewidth freq amplitude bias =
      Except.error PyErr.invalidParameter ↔ ¬validParams samplerate freq amplitude bias := by
  unfold check_and_get_scale validParams
  split_ifs with h <;> simp [h]

/-- Mapping over an `Except` neither raises nor swallows errors. -/
theorem map_error_iff {α β : Type} (e : Except PyErr α) (f : α → β) (err : PyErr) :
    e.map f = Except.error err ↔ e = Except.error err := by
  cases e <;> simp [Except.map]

/-- C3, counterexample: `sine_gen` is a Python generator function, so
calling it with an out-of-range amplitude (`2`, outside `[0,1]`) raises
nothing — the call returns a generator object; the invalid-parameter
failure only surfaces when the first sample is requested.  This refutes
"raised synchronously at call time" for the streaming operations. -/
theorem c3_counterexample :
    sineGenCall 44100 2 600 2 0 0 = Except.ok ⟨44100, 2, 600, 2, 0, 0⟩ ∧
    sineGenFirstPull (fun x => x) ⟨44100, 2, 600, 2, 0, 0⟩ none =
      Except.error PyErr.invalidParameter := by
  refine ⟨rfl, ?_⟩
  norm_num [sineGenFirstPull, WaveSynth.sine_gen, WaveSynth.stream, WaveSynth.sineWave,
    check_and_get_scale, Except.map]

/-- C3 (amended): for every waveform operation of the facade with
frequency/amplitude/bias parameters, bounded or streaming, the operation
fails with the invalid-parameter error if and only if `frequency >
samplerate/2`, or `amplitude ∉ [0,1]`, or `bias ∉ [-1,1]` (for `pulse`,
under a pulse width inside its asserted `[0,1]` range); the failure is
decided once, from the parameters alone, before any sample is produced and
never mid-stream.  For the bounded operations it occurs synchronously at
call time; for the streaming `_gen` operations the call itself returns a
generator object and the failure surfaces at the first sample request. -/
theorem c3_theorem (s : ℚ → ℚ) (samplerate samplewidth : ℕ)
    (frequency duration amplitude phase bias pulsewidth : ℚ) (num_harmonics : ℕ)
    (harm : List (ℕ × ℚ)) (fm_lfo pwm_lfo : Option (ℕ → ℚ)) (rnd : ℕ → ℚ)
    (hpw : 0 ≤ pulsewidth ∧ pulsewidth ≤ 1) :
    (WaveSynth.sine s samplerate samplewidth frequency duration amplitude phase bias fm_lfo =
        Except.error PyErr.invalidParameter ↔
      ¬validParams samplerate frequency amplitude bias) ∧
    (WaveSynth.sine_gen s samplerate samplewidth frequency amplitude phase bias fm_lfo =
        Except.error PyErr.invalidParameter ↔
      ¬validParams samplerate frequency amplitude bias) ∧
    (WaveSynth.square samplerate samplewidth frequency duration amplitude phase bias fm_lfo =
        Except.error PyErr.invalidParameter ↔
      ¬validParams samplerate frequency amplitude bias) ∧
    (WaveSynth.square_gen samplerate samplewidth frequency amplitude phase bias fm_lfo =
        Except.error PyErr.invalidParameter ↔
      ¬validParams samplerate frequency amplitude bias) ∧
    (WaveSynth.square_h s samplerate samplewidth frequency duration num_harmonics amplitude phase
          bias fm_lfo = Except.error PyErr.invalidParameter ↔
      ¬validParams samplerate frequency amplitude bias) ∧
    (WaveSynth.square_h_gen s samplerate samplewidth frequency num_harmonics amplitude phase bias
          fm_lfo = Except.error PyErr.invalidParameter ↔
      ¬validParams samplerate frequency amplitude bias) ∧
    (WaveSynth.triangle samplerate samplewidth frequency duration amplitude phase bias fm_lfo =
        Except.error PyErr.invalidParameter ↔
      ¬validParams samplerate frequency amplitude bias) ∧
    (WaveSynth.triangle_gen samplerate samplewidth frequency amplitude phase bias fm_lfo =
        Except.error PyErr.invalidParameter ↔
      ¬validParams samplerate frequency amplitude bias) ∧
    (WaveSynth.sawtooth samplerate samplewidth frequency duration amplitude phase bias fm_lfo =
        Except.error PyErr.invalidParameter ↔
      ¬validParams samplerate frequency amplitude bias) ∧
    (WaveSynth.sawtooth_gen samplerate samplewidth frequency amplitude phase bias fm_lfo =
        Except.error PyErr.invalidParameter ↔
      ¬validParams samplerate frequency amplitude bias) ∧
    (WaveSynth.sawtooth_h s samplerate samplewidth frequency duration num_harmonics amplitude
          phase bias fm_lfo = Except.error PyErr.invalidParameter ↔
      ¬validParams samplerate frequency amplitude bias) ∧
    (WaveSynth.sawtooth_h_gen s samplerate samplewidth frequency num_harmonics amplitude phase
          bias fm_lfo = Except.error PyErr.invalidParameter ↔
      ¬validParams samplerate frequency amplitude bias) ∧
    (WaveSynth.pulse samplerate samplewidth frequency duration amplitude phase bias pulsewidth
          fm_lfo pwm_lfo = Except.error PyErr.invalidParameter ↔
      ¬validParams samplerate frequency amplitude bias) ∧
    (WaveSynth.pulse_gen samplerate samplewidth frequency amplitude phase bias pulsewidth fm_lfo
          pwm_lfo = Except.error PyErr.invalidParameter ↔
      ¬validParams samplerate frequency amplitude bias) ∧
    (WaveSynth.harmonics s samplerate samplewidth frequency duration harm amplitude phase bias
          fm_lfo = Except.error PyErr.invalidParameter ↔
      ¬validParams samplerate frequency amplitude bias) ∧
    (WaveSynth.harmonics_gen s samplerate samplewidth frequency harm amplitude phase bias fm_lfo =
        Except.error PyErr.invalidParameter ↔
      ¬validParams samplerate frequency amplitude bias) ∧
    (WaveSynth.white_noise samplerate samplewidth frequency duration amplitude bias rnd =
        Except.error PyErr.invalidParameter ↔
      ¬validParams samplerate frequency amplitude bias) ∧
    (WaveSynth.white_noise_gen samplerate samplewidth frequency amplitude bias rnd =
        Except.error PyErr.invalidParameter ↔
      ¬validParams samplerate frequency amplitude bias) ∧
    sineGenCall samplerate samplewidth frequency amplitude phase bias =
      Except.ok ⟨samplerate, samplewidth, frequency, amplitude, phase, bias⟩ ∧
    (sineGenFirstPull s ⟨samplerate, samplewidth, frequency, amplitude, phase, bias⟩ fm_lfo =
        Except.error PyErr.invalidParameter ↔
      ¬validParams samplerate frequency amplitude bias) := by
  refine ⟨?_, ?_, ?_, ?_, ?_, ?_, ?_, ?_, ?_, ?_, ?_, ?_, ?_, ?_, ?_, ?_, ?_, ?_, rfl, ?_⟩ <;>
    simp only [WaveSynth.sine, WaveSynth.sine_gen, WaveSynth.square, WaveSynth.square_gen,
      WaveSynth.square_h, WaveSynth.square_h_gen, WaveSynth.triangle, WaveSynth.triangle_gen,
      WaveSynth.sawtooth, WaveSynth.sawtooth_gen, WaveSynth.sawtooth_h, WaveSynth.sawtooth_h_gen,
      WaveSynth.pulse, WaveSynth.pulse_gen, WaveSynth.harmonics, WaveSynth.harmonics_gen,
      WaveSynth.white_noise, WaveSynth.white_noise_gen, sineGenFirstPull,
      WaveSynth.render, WaveSynth.stream, WaveSynth.sineWave, WaveSynth.squareWave,
      WaveSynth.squareHWave, WaveSynth.triangleWave, WaveSynth.sawtoothWave,
      WaveSynth.sawtoothHWave, WaveSynth.pulseWave, WaveSynth.harmonicsWave,
      WaveSynth.whiteNoiseWave, WaveSynth.linearWave, if_pos hpw,
      map_error_iff, check_error_iff]

/-- C3, witness: a concrete out-of-range call — amplitude `2` — makes the
bounded `sine` operation fail with the invalid-parameter error. -/
theorem c3_witness :
    WaveSynth.sine (fun x => x) 44100 2 440 1 2 0 0 none =
      Except.error PyErr.invalidParameter :=
  ((c3_theorem (fun x => x) 44100 2 440 1 2 0 0 (1 / 10) 4 [(1, 1)] none none (fun _ => 0)
    (by norm_num)).1).mpr (by norm_num [validParams])

/-! ## Claim C4 -/

/-- Casting a nonnegative integer through `toNat` to `ℝ` is the identity. -/
theorem toNat_cast_real {x : ℤ} (h : 0 ≤ x) : ((x.toNat : ℕ) : ℝ) = (x : ℝ) := by
  exact_mod_cast congrArg (Int.cast : ℤ → ℝ) (Int.toNat_of_nonneg h)

/-- C4, counterexample: with `decay = 1/10` and `amount = 50` the code caps
the echo count to `6` (`log(1e-6, 0.1) = 6` exactly in real arithmetic),
but the 6th echo's compounded amplitude `(1/10)^6 = 1e-6` does not stay
strictly above `1e-6` — so `6` is not "the largest number of echoes whose
compounded amplitude stays above 1e-6" (which is `5`). -/
theorem c4_counterexample :
    EchoFilter.effectiveAmount 50 (1 / 10) = 6 ∧
      ¬((1 / 10 : ℝ) ^ (6 : ℕ) > 1 / 1000000) := by
  have h10 : ((1 / 10 : ℝ)) ^ (6 : ℕ) = 1 / 1000000 := by norm_num
  have hlogm : Real.log (1 / 1000000 : ℝ) = 6 * Real.log (1 / 10) := by
    rw [← h10, Real.log_pow]
    push_cast
    ring
  have hlogd : Real.log (1 / 10 : ℝ) < 0 := Real.log_neg (by norm_num) (by norm_num)
  have hL : Real.log (1 / 1000000) / Real.log (1 / 10 : ℝ) = 6 := by
    rw [hlogm, mul_div_assoc, div_self (ne_of_lt hlogd), mul_one]
  constructor
  · rw [EchoFilter.effectiveAmount, if_pos (by norm_num), hL, min_eq_right (by norm_num),
      pyIntR, if_pos (by norm_num)]
    norm_num
  · norm_num

/-- C4 (amended): for `0 < decay < 1` the echo count actually used is
nonnegative, never exceeds the requested `amount`, and is the largest
count whose compounded amplitude `decay^i` stays at **least** `1e-6`
(`≥`, not strictly above): the capped count's amplitude is still `≥ 1e-6`,
and either one more echo would fall strictly below `1e-6` or no cap
triggered at all (`= amount`).  In particular `decay = 1/2, amount = 10`
triggers no cap, and `decay ≥ 1` (here `3/2`) leaves the amount
unchanged. -/
theorem c4_theorem (amount : ℕ) (decay : ℝ) (h0 : 0 < decay) (h1 : decay < 1) :
    0 ≤ EchoFilter.effectiveAmount amount decay ∧
    EchoFilter.effectiveAmount amount decay ≤ amount ∧
    (1 / 1000000 : ℝ) ≤ decay ^ (EchoFilter.effectiveAmount amount decay).toNat ∧
    (decay ^ ((EchoFilter.effectiveAmount amount decay).toNat + 1) < 1 / 1000000 ∨
      EchoFilter.effectiveAmount amount decay = amount) ∧
    EchoFilter.effectiveAmount 10 (1 / 2) = 10 ∧
    EchoFilter.effectiveAmount 50 (3 / 2) = 50 := by
  set L := Real.log (1 / 1000000) / Real.log decay with hLdef
  have hlogd : Real.log decay < 0 := Real.log_neg h0 h1
  have hlogm : Real.log (1 / 1000000 : ℝ) < 0 := Real.log_neg (by norm_num) (by norm_num)
  have hL : 0 < L := by
    rw [hLdef, div_pos_iff]
    exact Or.inr ⟨hlogm, hlogd⟩
  have hmin0 : (0 : ℝ) ≤ min (amount : ℝ) L := le_min (by positivity) hL.le
  have hfl0 : (0 : ℤ) ≤ ⌊min (amount : ℝ) L⌋ := by
    rw [Int.le_floor]
    exact_mod_cast hmin0
  have heff : EchoFilter.effectiveAmount amount decay = ⌊min (amount : ℝ) L⌋ := by
    rw [EchoFilter.effectiveAmount, if_pos h1, pyIntR, if_pos hmin0]
  have hdL : decay ^ L = (1 / 1000000 : ℝ) := by
    rw [Real.rpow_def_of_pos h0, hLdef, mul_comm, div_mul_cancel₀ _ (ne_of_lt hlogd),
      Real.exp_log (by norm_num)]
  have heff0 : 0 ≤ EchoFilter.effectiveAmount amount decay := heff ▸ hfl0
  have heffle : EchoFilter.effectiveAmount amount decay ≤ amount := by
    rw [heff]
    calc ⌊min (amount : ℝ) L⌋ ≤ ⌊(amount : ℝ)⌋ := Int.floor_le_floor (min_le_left _ _)
      _ = amount := Int.floor_natCast amount
  have hn : ((EchoFilter.effectiveAmount amount decay).toNat : ℝ) ≤ L := by
    rw [heff, toNat_cast_real hfl0]
    calc ((⌊min (amount : ℝ) L⌋ : ℤ) : ℝ) ≤ min (amount : ℝ) L := Int.floor_le _
      _ ≤ L := min_le_right _ _
  have hpow : (1 / 1000000 : ℝ) ≤ decay ^ (EchoFilter.effectiveAmount amount decay).toNat := by
    have h := Real.rpow_le_rpow_of_exponent_ge h0 h1.le hn
    rw [hdL] at h
    rwa [Real.rpow_natCast] at h
  have hnoCap : EchoFilter.effectiveAmount 10 (1 / 2) = 10 := by
    have hlogh : Real.log (1 / 2 : ℝ) < 0 := Real.log_neg (by norm_num) (by norm_num)
    have h3 : (10 : ℝ) * Real.log (1 / 2) = Real.log ((1 / 2 : ℝ) ^ (10 : ℕ)) := by
      rw [Real.log_pow]
      push_cast
      ring
    have h2 : Real.log (1 / 1000000 : ℝ) ≤ 10 * Real.log (1 / 2) := by
      rw [h3]
      exact Real.log_le_log (by norm_num) (by norm_num)
    have hge : (((10 : ℕ) : ℝ)) ≤ Real.log (1 / 1000000) / Real.log (1 / 2) := by
      rw [le_div_iff_of_neg hlogh]
      push_cast
      linarith
    rw [EchoFilter.effectiveAmount, if_pos (by norm_num), min_eq_left hge, pyIntR,
      if_pos (by positivity)]
    norm_num
  have hnoCap2 : EchoFilter.effectiveAmount 50 (3 / 2) = 50 := by
    rw [EchoFilter.effectiveAmount, if_neg (by norm_num)]
    norm_num
  refine ⟨heff0, heffle, hpow, ?_, hnoCap, hnoCap2⟩
  by_cases hLa : L < (amount : ℝ)
  · left
    have hminL : min (amount : ℝ) L = L := min_eq_right hLa.le
    have hflL : (0 : ℤ) ≤ ⌊L⌋ := by
      rw [Int.le_floor]
      exact_mod_cast hL.le
    have hlt : L < ((EchoFilter.effectiveAmount amount decay).toNat + 1 : ℝ) := by
      rw [heff, hminL, toNat_cast_real hflL]
      have h2 := Int.lt_floor_add_one L
      linarith
    have h := Real.rpow_lt_rpow_of_exponent_gt h0 h1 hlt
    rw [hdL] at h
    have hcast : ((EchoFilter.effectiveAmount amount decay).toNat + 1 : ℝ) =
        (((EchoFilter.effectiveAmount amount decay).toNat + 1 : ℕ) : ℝ) := by
      push_cast
      ring
    rw [hcast, Real.rpow_natCast] at h
    exact h
  · right
    push_neg at hLa
    rw [heff, min_eq_left hLa, Int.floor_natCast]

/-- C4, witness: the amended characterization evaluated at
`amount = 10, decay = 1/2` (the spec's no-cap example). -/
theorem c4_witness :
    0 ≤ EchoFilter.effectiveAmount 10 (1 / 2) ∧
    EchoFilter.effectiveAmount 10 (1 / 2) ≤ 10 ∧
    (1 / 1000000 : ℝ) ≤ (1 / 2 : ℝ) ^ (EchoFilter.effectiveAmount 10 (1 / 2)).toNat ∧
    ((1 / 2 : ℝ) ^ ((EchoFilter.effectiveAmount 10 (1 / 2)).toNat + 1) < 1 / 1000000 ∨
      EchoFilter.effectiveAmount 10 (1 / 2) = 10) ∧
    EchoFilter.effectiveAmount 10 (1 / 2) = 10 ∧
    EchoFilter.effectiveAmount 50 (3 / 2) = 50 :=
  c4_theorem 10 (1 / 2) (by norm_num) (by norm_num)

/-! ## Claim C5 -/

/-- C5 (confirmed): an `EnvelopeFilter` with `attack=0, decay=0, sustain=1,
sustain_level=1, release=0, cycle=False, stop_at_end=False` yields the
source's first `samplerate` samples unchanged (the zero-duration attack,
decay and release blocks are skipped by Python truthiness and contribute
no samples; the sustain loop multiplies by `sustain_level = 1`), and
afterwards yields `0.0` forever. -/
theorem c5_theorem (src : ℕ → ℚ) (samplerate : ℕ) (j : ℕ) :
    (j < samplerate →
      EnvelopeFilter.sample src samplerate 0 0 1 1 0 false j = some (src j)) ∧
    (samplerate ≤ j →
      EnvelopeFilter.sample src samplerate 0 0 1 1 0 false j = some 0) := by
  have hS : iterCount 0 1 samplerate = samplerate := by
    simp [iterCount]
  constructor <;> intro hj
  · simp [EnvelopeFilter.sample, hS, hj]
  · simp [EnvelopeFilter.sample, hS, Nat.not_lt.mpr hj]

/-- C5, witness: at `samplerate = 2` over the source `n ↦ n + 3` the
envelope passes sample 1 through (`4`) and emits `0` at sample 2. -/
theorem c5_witness :
    EnvelopeFilter.sample (fun n => (n : ℚ) + 3) 2 0 0 1 1 0 false 1 = some 4 ∧
    EnvelopeFilter.sample (fun n => (n : ℚ) + 3) 2 0 0 1 1 0 false 2 = some 0 :=
  ⟨by
    have h := (c5_theorem (fun n => (n : ℚ) + 3) 2 1).1 (by norm_num)
    norm_num at h
    exact h,
    (c5_theorem (fun n => (n : ℚ) + 3) 2 2).2 (by norm_num)⟩

/-! ## Claim C6 -/

/-- C6, counterexample: `DelayFilter.generator` uses `int(...)`
(truncation), not `round(...)`.  With `samplerate = 1000` and
`seconds = 3/2000` (i.e. `samplerate*seconds = 1.5`), the claim's
`round(1.5) = 2` predicts two leading zeros, but the code emits
`int(1.5) = 1` zero: sample 1 is already the source's first sample `7`. -/
theorem c6_counterexample :
    pyRound ((1000 : ℚ) * (3 / 2000)) = 2 ∧
    DelayFilter.sample (fun _ => 7) 1000 (3 / 2000) 1 = 7 := by
  constructor
  · norm_num [pyRound]
  · norm_num [DelayFilter.sample, pyInt]

/-- C6 (amended): for `seconds ≥ 0` the filter yields exactly
`int(seconds*samplerate)` (truncated toward zero, not rounded) zero
samples and then the source unchanged; for `seconds < 0` it discards the
first `int(-seconds*samplerate)` source samples and yields the remainder
unchanged. -/
theorem c6_theorem (src : ℕ → ℚ) (samplerate : ℕ) (seconds : ℚ) (k : ℕ) :
    (0 ≤ seconds →
      (k < (pyInt ((samplerate : ℚ) * seconds)).toNat →
        DelayFilter.sample src samplerate seconds k = 0) ∧
      ((pyInt ((samplerate : ℚ) * seconds)).toNat ≤ k →
        DelayFilter.sample src samplerate seconds k =
          src (k - (pyInt ((samplerate : ℚ) * seconds)).toNat))) ∧
    (seconds < 0 →
      DelayFilter.sample src samplerate seconds k =
        src (k + (pyInt (-(samplerate : ℚ) * seconds)).toNat)) := by
  constructor
  · intro h0
    have hns : ¬seconds < 0 := not_lt.mpr h0
    constructor <;> intro hk
    · simp [DelayFilter.sample, hns, hk]
    · simp [DelayFilter.sample, hns, Nat.not_lt.mpr hk]
  · intro hneg
    simp [DelayFilter.sample, hneg]

/-- C6, witness: with `samplerate = 1000`, `seconds = 3/2000` and the
source `n ↦ n + 5`, the filter emits one zero (sample 0) and then the
source from its first value (`5` at sample 1). -/
theorem c6_witness :
    DelayFilter.sample (fun n => (n : ℚ) + 5) 1000 (3 / 2000) 0 = 0 ∧
    DelayFilter.sample (fun n => (n : ℚ) + 5) 1000 (3 / 2000) 1 = 5 := by
  have h0 := ((c6_theorem (fun n => (n : ℚ) + 5) 1000 (3 / 2000) 0).1 (by norm_num)).1
  have h1 := ((c6_theorem (fun n => (n : ℚ) + 5) 1000 (3 / 2000) 1).1 (by norm_num)).2
  norm_num [pyInt] at h0 h1
  exact ⟨h0, h1⟩

/-! ## Claim C7 -/

/-- C7, counterexample: `WhiteNoise.generator` computes
`cycles = int(samplerate/frequency)` (truncation), not `round`.  With
`samplerate = 1000`, `frequency = 600` the claim's block length is
`round(5/3) = 2`, which would force samples 0 and 1 to repeat one draw;
the code's block length is `int(5/3) = 1`, so sample 1 already exposes the
second draw (draws `0` and `1/2`, both legal `uniform(-1, 1)` values). -/
theorem c7_counterexample :
    pyRound ((1000 : ℚ) / 600) = 2 ∧
    WhiteNoise.sample (fun i => if i = 0 then 0 else 1 / 2) 1000 600 0 0 = 0 ∧
    WhiteNoise.sample (fun i => if i = 0 then 0 else 1 / 2) 1000 600 0 1 = 1 / 2 := by
  refine ⟨?_, ?_, ?_⟩ <;> norm_num [pyRound, WhiteNoise.sample, pyInt]

/-- C7 (amended): for `frequency > 0` with a nonzero block length
(`int(samplerate/frequency) ≥ 1`; a zero block length makes the Python
generator loop forever without yielding), sample `k` equals the
`⌊k / cycles⌋`-th random draw plus the bias — i.e. each draw is repeated
for exactly `cycles = int(samplerate/frequency)` (truncated, not rounded)
consecutive samples — and, assuming `uniform`'s guarantee that each draw
lies in `[-amplitude, amplitude]`, every sample lies in
`[-amplitude, amplitude] + bias`. -/
theorem c7_theorem (rnd : ℕ → ℚ) (samplerate : ℕ) (frequency amplitude bias : ℚ) (k : ℕ)
    (_hf : 0 < frequency)
    (hrange : ∀ i, -amplitude ≤ rnd i ∧ rnd i ≤ amplitude)
    (_hcycles : 0 < (pyInt ((samplerate : ℚ) / frequency)).toNat) :
    WhiteNoise.sample rnd samplerate frequency bias k =
      rnd (k / (pyInt ((samplerate : ℚ) / frequency)).toNat) + bias ∧
    -amplitude + bias ≤ WhiteNoise.sample rnd samplerate frequency bias k ∧
    WhiteNoise.sample rnd samplerate frequency bias k ≤ amplitude + bias := by
  refine ⟨rfl, ?_, ?_⟩
  · have h := (hrange (k / (pyInt ((samplerate : ℚ) / frequency)).toNat)).1
    simp only [WhiteNoise.sample]
    linarith
  · have h := (hrange (k / (pyInt ((samplerate : ℚ) / frequency)).toNat)).2
    simp only [WhiteNoise.sample]
    linarith

/-- C7, witness: `samplerate = 8, frequency = 3` gives `cycles = 2`; with
the constant draw `1/3` (inside `[-1, 1]`) sample 5 is `1/3` and lies in
`[-1, 1] + 0`. -/
theorem c7_witness :
    WhiteNoise.sample (fun _ => 1 / 3) 8 3 0 5 = 1 / 3 ∧
    -1 + 0 ≤ WhiteNoise.sample (fun _ => (1 : ℚ) / 3) 8 3 0 5 ∧
    WhiteNoise.sample (fun _ => (1 : ℚ) / 3) 8 3 0 5 ≤ 1 + 0 := by
  have h := c7_theorem (fun _ => 1 / 3) 8 3 1 0 5 (by norm_num)
    (fun i => by norm_num) (by norm_num [pyInt])
  norm_num at h
  norm_num [h.1]

/-! ## Claim C8 -/

/-- C8, counterexample: `Linear.generator` only updates (and hence only
clamps) when the increment is truthy.  With `start_level = 5`,
`increment = 0` and clamp range `[-1, 1]`, the claim predicts sample 1 =
`min(1, max(-1, 5 + 0)) = 1`, but the code yields `5` forever — outside
`[min_value, max_value]`. -/
theorem c8_counterexample :
    Linear.value 5 0 (-1) 1 1 = 5 ∧
    min (1 : ℚ) (max (-1) (Linear.value 5 0 (-1) 1 0 + 0)) = 1 := by
  norm_num [Linear.value]

/-- C8 (amended): the first sample equals `start_level`; when the
increment is nonzero every subsequent sample is the previous sample plus
the increment, clamped into `[min_value, max_value]`, and in particular
(for `min_value ≤ max_value`) lies in that interval.  When the increment
is zero the generator yields `start_level` forever without clamping. -/
theorem c8_theorem (startlevel increment min_value max_value : ℚ) (k : ℕ)
    (hinc : increment ≠ 0) (hmm : min_value ≤ max_value) :
    Linear.value startlevel increment min_value max_value 0 = startlevel ∧
    Linear.value startlevel increment min_value max_value (k + 1) =
      min max_value (max min_value
        (Linear.value startlevel increment min_value max_value k + increment)) ∧
    min_value ≤ Linear.value startlevel increment min_value max_value (k + 1) ∧
    Linear.value startlevel increment min_value max_value (k + 1) ≤ max_value := by
  have hstep : Linear.value startlevel increment min_value max_value (k + 1) =
      min max_value (max min_value
        (Linear.value startlevel increment min_value max_value k + increment)) := by
    simp [Linear.value, hinc]
  refine ⟨rfl, hstep, ?_, ?_⟩
  · rw [hstep]
    exact le_min hmm (le_max_left _ _)
  · rw [hstep]
    exact min_le_left _ _

/-- C8, witness: the amended facts at `start_level = 5, increment = 1/2,
min_value = -1, max_value = 1, k = 0`. -/
theorem c8_witness :
    Linear.value 5 (1 / 2) (-1) 1 0 = 5 ∧
    Linear.value 5 (1 / 2) (-1) 1 1 =
      min 1 (max (-1) (Linear.value 5 (1 / 2) (-1) 1 0 + 1 / 2)) ∧
    -1 ≤ Linear.value 5 (1 / 2) (-1) 1 1 ∧
    Linear.value 5 (1 / 2) (-1) 1 1 ≤ 1 :=
  c8_theorem 5 (1 / 2) (-1) 1 0 (by norm_num) (by norm_num)

/-! ## Claim C9 -/

/-- C9 (confirmed): a `ClipFilter` built with the constructor defaults has
`minimum = sys.float_info.min = 2⁻¹⁰²²` (a tiny **positive** number, not
zero), so every source sample `≤ 0` is mapped to `2⁻¹⁰²²`; in particular
the default-constructed filter is not an identity pass-through. -/
theorem c9_theorem (src : ℕ → ℚ) (k : ℕ) (h : src k ≤ 0) :
    ClipFilter.sample sysFloatInfoMin sysFloatInfoMax src k = sysFloatInfoMin ∧
    ClipFilter.sample sysFloatInfoMin sysFloatInfoMax src k ≠ src k := by
  have hmin : (0 : ℚ) < sysFloatInfoMin := by
    rw [sysFloatInfoMin]
    positivity
  have hmax : src k ≤ sysFloatInfoMax := le_trans h (by norm_num [sysFloatInfoMax])
  have heq : ClipFilter.sample sysFloatInfoMin sysFloatInfoMax src k = sysFloatInfoMin := by
    rw [ClipFilter.sample, min_eq_left hmax, max_eq_right (le_of_lt (lt_of_le_of_lt h hmin))]
  exact ⟨heq, by rw [heq]; exact ne_of_gt (lt_of_le_of_lt h hmin)⟩

/-- C9, witness: the default clip filter maps the sample `-1` to
`sys.float_info.min`, so it is not the identity there. -/
theorem c9_witness :
    ClipFilter.sample sysFloatInfoMin sysFloatInfoMax (fun _ => -1) 0 = sysFloatInfoMin ∧
    ClipFilter.sample sysFloatInfoMin sysFloatInfoMax (fun _ => -1) 0 ≠ -1 :=
  c9_theorem (fun _ => -1) 0 (by norm_num)

/-! ## Claim C10 -/

/-- C10 (confirmed): whenever `int(duration*samplerate) = 1`,
`WaveSynth.__linear` computes `(finish_amp - start_amp) / (num_samples - 1)`
with a zero denominator, so both `linear` and `linear_gen` fail with a
division-by-zero error instead of producing a one-sample output. -/
theorem c10_theorem (samplerate : ℕ) (duration start_amp finish_amp : ℚ)
    (h : pyInt (duration * samplerate) = 1) :
    WaveSynth.linearWave samplerate duration start_amp finish_amp =
      Except.error PyErr.zeroDivision ∧
    WaveSynth.linear samplerate duration start_amp finish_amp =
      Except.error PyErr.zeroDivision ∧
    WaveSynth.linear_gen samplerate duration start_amp finish_amp =
      Except.error PyErr.zeroDivision := by
  have hwave : WaveSynth.linearWave samplerate duration start_amp finish_amp =
      Except.error PyErr.zeroDivision := by
    simp [WaveSynth.linearWave, h]
  exact ⟨hwave, by simp [WaveSynth.linear, WaveSynth.render, hwave, Except.map],
    by simp [WaveSynth.linear_gen, hwave, Except.map]⟩

/-- C10, witness: `duration = 1/10` at `samplerate = 10` gives exactly one
sample, and all three entry points fail with the division-by-zero error. -/
theorem c10_witness :
    WaveSynth.linearWave 10 (1 / 10) 0 1 = Except.error PyErr.zeroDivision ∧
    WaveSynth.linear 10 (1 / 10) 0 1 = Except.error PyErr.zeroDivision ∧
    WaveSynth.linear_gen 10 (1 / 10) 0 1 = Except.error PyErr.zeroDivision :=
  c10_theorem 10 (1 / 10) 0 1 (by norm_num [pyInt])

end Synth
